import Mathlib

/-!
Verification development for the Euterpe single-owner Spotify analytics
dashboard.  The boundary layer (token management, admin login, HTTP gating,
health check) is embedded from `src/app.py` and `src/models.py`; the pure
analytics functions live in `logic.py`, which only exists through its import
list and the specification, so those are modelled from the spec and marked
as such in their doc comments.
-/

/-- Spotify OAuth token-refresh response, as consumed by
`refresh_owner_token_if_needed` in `src/app.py` (`token_info` dict:
`access_token`, `expires_in`, optional `refresh_token`). -/
structure TokenInfo where
  accessToken : String
  expiresIn : Int
  refreshToken : Option String
deriving DecidableEq, Repr

/-- The single owner-token row of `src/models.py` (`OwnerToken`,
table `euterpe.owner_tokens`).  Timestamps are UTC seconds as integers. -/
structure OwnerToken where
  accessTokenEncrypted : String
  refreshTokenEncrypted : String
  expiresAt : Int
  tokenType : String
  tokScope : String
  spotifyUserId : Option String
  displayName : Option String
  updatedAt : Int
deriving DecidableEq, Repr

/-- An authenticated Spotify client, `spotipy.Spotify(auth=access_token)`
in `src/app.py`. -/
structure Client where
  auth : String
deriving DecidableEq, Repr

/-- Modelled from the spec: `encryption.py` (`encrypt_token`) is imported by
`src/app.py` but is not part of the sources; the spec treats at-rest
encryption as an excluded collaborator, so it is modelled as a reversible
tagging of the token string. -/
def encrypt_token (s : String) : String := String.append "enc:" s

/-- Modelled from the spec: `encryption.py` (`decrypt_token`), inverse of
`encrypt_token`. -/
def decrypt_token (s : String) : String := s.drop 4

/-- Result of `refresh_owner_token_if_needed`: the returned bool, the
(possibly updated) owner-token row after `db.session.commit()`, and how many
network refresh attempts (`oauth.refresh_access_token`) were made. -/
structure RefreshResult where
  ok : Bool
  token : Option OwnerToken
  attempts : Nat
deriving DecidableEq, Repr

/-- Embedding of `refresh_owner_token_if_needed` (src/app.py lines 174-224).
`now` is the current UTC time in seconds, `net` is the outcome of the single
`oauth.refresh_access_token` call (`none` models the raised exception that
the `except` block turns into `False`).  A token whose `expires_at` is more
than 2 minutes (120 s) in the future is returned untouched. -/
def refresh_owner_token_if_needed (now : Int) (net : Option TokenInfo) :
    Option OwnerToken → RefreshResult
  | none => ⟨false, none, 0⟩
  | some tok =>
    if now + 120 < tok.expiresAt then
      ⟨true, some tok, 0⟩
    else
      match net with
      | some info =>
        ⟨true, some { tok with
            accessTokenEncrypted := encrypt_token info.accessToken,
            expiresAt := now + info.expiresIn,
            updatedAt := now,
            refreshTokenEncrypted :=
              match info.refreshToken with
              | some rt => encrypt_token rt
              | none => tok.refreshTokenEncrypted }, 1⟩
      | none => ⟨false, some tok, 1⟩

/-- Embedding of `get_owner_spotify_client` (src/app.py lines 227-247):
`db` is the result of `get_owner_token()` (the `euterpe.owner_tokens` row
with id `owner`, or `none`). -/
def get_owner_spotify_client (now : Int) (net : Option TokenInfo)
    (db : Option OwnerToken) : Option Client :=
  match db with
  | none => none
  | some tok =>
    let r := refresh_owner_token_if_needed now net (some tok)
    if r.ok then
      match r.token with
      | some tok2 => some ⟨decrypt_token tok2.accessTokenEncrypted⟩
      | none => none
    else
      none

/-- JSON response bodies produced by the routes in `src/app.py` that the
claims mention: an analytics data payload, the 503 error payload of
`require_owner_token`, and the `/health` body. -/
inductive Body where
  | data (payload : String)
  | errorPayload (msg : String)
  | healthBody (status : String) (connected : Bool) (owner : Option String)
deriving DecidableEq, Repr

/-- An HTTP response: status code and JSON body. -/
structure Response where
  status : Nat
  body : Body
deriving DecidableEq, Repr

/-- The error message of the 503 payload in `require_owner_token`. -/
def notConnectedMsg : String :=
  "Site not connected to Spotify. Please contact the site owner."

/-- Embedding of the `require_owner_token` decorator (src/app.py lines
529-542): build the owner client; on failure answer 503 with the error
payload, otherwise run the wrapped handler on the client. -/
def require_owner_token (handler : Client → Response) (now : Int)
    (net : Option TokenInfo) (db : Option OwnerToken) : Response :=
  match get_owner_spotify_client now net db with
  | none => ⟨503, Body.errorPayload notConnectedMsg⟩
  | some c => handler c

/-- An analytics endpoint such as `top_albums` (src/app.py lines 545-551):
under `require_owner_token`, fetch data with the client and `jsonify` it,
which answers 200. -/
def analyticsEndpoint (fetch : Client → String) (now : Int)
    (net : Option TokenInfo) (db : Option OwnerToken) : Response :=
  require_owner_token (fun c => ⟨200, Body.data (fetch c)⟩) now net db

/-- The claim's notion of `no valid owner credential`, written from the
spec's words: either no stored owner token, or the token needs a refresh
(expired or expiring within 2 minutes) and the refresh call fails. -/
def noValidOwnerCredential (now : Int) (net : Option TokenInfo)
    (db : Option OwnerToken) : Prop :=
  db = none ∨ ∃ tok, db = some tok ∧ tok.expiresAt ≤ now + 120 ∧ net = none

/-- Embedding of `admin_login` (src/app.py lines 131-139): the session flag
`admin_authenticated` is granted exactly when `request.form.get('password')`
equals `ADMIN_PASSWORD`; both are optional strings (`none` models Python's
`None` for a missing form field resp. unset environment variable). -/
def admin_login_grants (formPassword adminPassword : Option String) : Bool :=
  formPassword == adminPassword

/-- Embedding of the `/health` route (src/app.py lines 627-635): always
`jsonify` (hence 200) with status `healthy`, `connected` reporting whether
the owner-token row exists, and `owner` its display name or `None`. -/
def health_endpoint (db : Option OwnerToken) : Response :=
  ⟨200, Body.healthBody "healthy" db.isSome
    (match db with
     | some tok => tok.displayName
     | none => none)⟩

/-- Embedding of `request.args.get(key, default)` for a query string given
as an association list, as used by the analytics routes of `src/app.py`. -/
def args_get (args : List (String × String)) (key dflt : String) : String :=
  match args.find? (fun kv => kv.1 == key) with
  | some kv => kv.2
  | none => dflt

/-- The `time_range` value handed to the logic layer by `top_albums`
(src/app.py line 549) and the four sibling endpoints:
`request.args.get('time_range', 'medium_term')`. -/
def top_albums_time_range (args : List (String × String)) : String :=
  args_get args "time_range" "medium_term"

/-- Modelled from the spec: `logic.py` (the analytics layer consuming the
`time_range` token) is not among the sources; per the spec's open question,
a value outside the three upstream tokens is silently defaulted to
`medium_term`. -/
def normalize_time_range (tr : String) : String :=
  if tr == "short_term" || tr == "medium_term" || tr == "long_term" then tr
  else "medium_term"

/-- The time range an analytics request is ultimately processed under:
route-level defaulting composed with the logic-layer normalization. -/
def effective_time_range (args : List (String × String)) : String :=
  normalize_time_range (top_albums_time_range args)

/-- A fetched track record as the analytics layer sees it: identifier,
popularity score, and parsed release year (`none` when the release date is
missing or unparsable). -/
structure Track where
  tid : Nat
  popularity : Nat
  releaseYear : Option Nat
deriving DecidableEq, Repr

/-- Pair every element of a list with its position, starting at `n`; models
the original fetch order that stable sorting must preserve. -/
def withIdx (n : Nat) : List α → List (Nat × α)
  | [] => []
  | x :: xs => (n, x) :: withIdx (n + 1) xs

/-- Lexicographic order on indexed tracks: ascending popularity, ties by
original fetch position.  A stable ascending popularity sort is exactly an
`insertionSort` by this relation. -/
def popIdxLE (p q : Nat × Track) : Prop :=
  p.2.popularity < q.2.popularity ∨
    (p.2.popularity = q.2.popularity ∧ p.1 ≤ q.1)

instance : DecidableRel popIdxLE := fun p q =>
  inferInstanceAs (Decidable (p.2.popularity < q.2.popularity ∨
    (p.2.popularity = q.2.popularity ∧ p.1 ≤ q.1)))

instance : IsTotal (Nat × Track) popIdxLE where
  total p q := by
    unfold popIdxLE
    rcases Nat.lt_trichotomy p.2.popularity q.2.popularity with h | h | h
    · exact Or.inl (Or.inl h)
    · rcases Nat.le_total p.1 q.1 with h' | h'
      · exact Or.inl (Or.inr ⟨h, h'⟩)
      · exact Or.inr (Or.inr ⟨h.symm, h'⟩)
    · exact Or.inr (Or.inl h)

instance : IsTrans (Nat × Track) popIdxLE where
  trans p q r hpq hqr := by
    unfold popIdxLE at hpq hqr ⊢
    omega

/-- Ascending popularity, the order the hidden-gems view presents. -/
def popLE (a b : Track) : Prop := a.popularity ≤ b.popularity

/-- Modelled from the spec: `get_hidden_gems` in `logic.py` is not among the
sources.  Per the spec it is a stable ascending sort of the fetched tracks
by popularity (ties keep the original fetch order), realised as an
insertion sort of position-indexed tracks by `popIdxLE`. -/
def hiddenGemsPairs (tracks : List Track) : List (Nat × Track) :=
  List.insertionSort popIdxLE (withIdx 0 tracks)

/-- The hidden-gems track list itself: the stable sort with the fetch
positions stripped. -/
def hiddenGems (tracks : List Track) : List Track :=
  (hiddenGemsPairs tracks).map Prod.snd

/-- Modelled from the spec: `get_artists_standing_test_of_time` in
`logic.py` is not among the sources.  Per the spec it returns the artist
identifiers present in all three time-window lists, in the long-term
list's relative order. -/
def standingTestOfTime (shortL mediumL longL : List Nat) : List Nat :=
  longL.filter (fun a => shortL.contains a && mediumL.contains a)

/-- A playlist as the affinity analysis sees it: identifier and the
identifiers of its tracks. -/
structure Playlist where
  pid : Nat
  ptracks : List Nat
deriving DecidableEq, Repr

/-- Number of the user's (distinct) top tracks found in a playlist's track
set — the spec's playlist affinity score. -/
def matchCount (topTracks : List Nat) (p : Playlist) : Nat :=
  (topTracks.dedup.filter (fun t => p.ptracks.contains t)).length

/-- Order on indexed playlists: descending match count, ties by original
listing position. -/
def affLE (topTracks : List Nat) (p q : Nat × Playlist) : Prop :=
  matchCount topTracks q.2 < matchCount topTracks p.2 ∨
    (matchCount topTracks p.2 = matchCount topTracks q.2 ∧ p.1 ≤ q.1)

instance (topTracks : List Nat) : DecidableRel (affLE topTracks) := fun p q =>
  inferInstanceAs (Decidable (matchCount topTracks q.2 < matchCount topTracks p.2 ∨
    (matchCount topTracks p.2 = matchCount topTracks q.2 ∧ p.1 ≤ q.1)))

instance (topTracks : List Nat) : IsTotal (Nat × Playlist) (affLE topTracks) where
  total p q := by
    unfold affLE
    rcases Nat.lt_trichotomy (matchCount topTracks p.2) (matchCount topTracks q.2) with h | h | h
    · exact Or.inr (Or.inl h)
    · rcases Nat.le_total p.1 q.1 with h' | h'
      · exact Or.inl (Or.inr ⟨h, h'⟩)
      · exact Or.inr (Or.inr ⟨h.symm, h'⟩)
    · exact Or.inl (Or.inl h)

instance (topTracks : List Nat) : IsTrans (Nat × Playlist) (affLE topTracks) where
  trans p q r hpq hqr := by
    unfold affLE at hpq hqr ⊢
    omega

/-- Modelled from the spec: `analyze_top_playlists` in `logic.py` is not
among the sources.  Per the spec, playlists with zero overlap are excluded,
the rest are ranked by descending match count (ties by original listing
order) and truncated to the top K = 10; the fetch positions are kept here
so that the tie-break is visible in the statement. -/
def topPlaylistPairs (topTracks : List Nat) (ps : List Playlist) :
    List (Nat × Playlist) :=
  (List.insertionSort (affLE topTracks)
    ((withIdx 0 ps).filter (fun p => matchCount topTracks p.2 != 0))).take 10

/-- The playlist-affinity result list itself, positions stripped. -/
def topPlaylistsByAffinity (topTracks : List Nat) (ps : List Playlist) :
    List Playlist :=
  (topPlaylistPairs topTracks ps).map Prod.snd

/-- Release years of the tracks whose release date parsed. -/
def knownYears (ts : List Track) : List Nat := ts.filterMap Track.releaseYear

/-- Modelled from the spec: `get_release_year_trends` in `logic.py` is not
among the sources.  Per the spec it maps each parsed release year to the
number of tracks released that year. -/
def releaseYearTrends (ts : List Track) : List (Nat × Nat) :=
  (knownYears ts).dedup.map (fun y => (y, (knownYears ts).count y))

/-- The spec's explicit `unknown` bucket: tracks whose release date is
missing or unparsable. -/
def unknownCount (ts : List Track) : Nat :=
  (ts.filter (fun t => t.releaseYear.isNone)).length

/-! ### Helper lemmas -/

theorem map_snd_withIdx (n : Nat) (l : List α) :
    (withIdx n l).map Prod.snd = l := by
  induction l generalizing n with
  | nil => rfl
  | cons x xs ih => simp [withIdx, ih]

theorem mem_withIdx {l : List α} {n : Nat} {p : Nat × α}
    (h : p ∈ withIdx n l) : n ≤ p.1 ∧ p.2 ∈ l := by
  induction l generalizing n with
  | nil => cases h
  | cons x xs ih =>
    rcases List.mem_cons.mp h with h' | h'
    · subst h'
      exact ⟨Nat.le_refl n, List.mem_cons_self x xs⟩
    · rcases ih h' with ⟨h1, h2⟩
      exact ⟨by omega, List.mem_cons_of_mem x h2⟩

theorem pairwise_withIdx {l : List Track} (h : l.Pairwise popLE) (n : Nat) :
    (withIdx n l).Pairwise popIdxLE := by
  induction l generalizing n with
  | nil => exact List.Pairwise.nil
  | cons x xs ih =>
    rcases List.pairwise_cons.mp h with ⟨hx, hxs⟩
    refine List.Pairwise.cons ?_ (ih hxs (n + 1))
    intro q hq
    rcases mem_withIdx hq with ⟨hle, hmem⟩
    have hp := hx q.2 hmem
    unfold popLE at hp
    show x.popularity < q.2.popularity ∨
      (x.popularity = q.2.popularity ∧ n ≤ q.1)
    omega

theorem length_knownYears_add_unknownCount (ts : List Track) :
    (knownYears ts).length + unknownCount ts = ts.length := by
  induction ts with
  | nil => rfl
  | cons t ts ih =>
    unfold knownYears unknownCount at ih ⊢
    cases h : t.releaseYear with
    | none =>
      simp only [List.filterMap_cons, h, List.filter_cons, Option.isNone_none,
        List.length_cons, if_pos]
      omega
    | some y =>
      simp only [List.filterMap_cons, h, List.filter_cons, Option.isNone_some,
        List.length_cons, if_neg, Bool.false_eq_true, not_false_eq_true]
      omega

theorem normalize_time_range_cases (tr : String) :
    normalize_time_range tr = "short_term" ∨
      normalize_time_range tr = "medium_term" ∨
      normalize_time_range tr = "long_term" := by
  unfold normalize_time_range
  split
  · rename_i h
    simp only [Bool.or_eq_true, beq_iff_eq] at h
    rcases h with (h | h) | h
    · exact Or.inl h
    · exact Or.inr (Or.inl h)
    · exact Or.inr (Or.inr h)
  · exact Or.inr (Or.inl rfl)

/-! ### Claim theorems -/

/-- Claim C8: `admin_login` grants the `admin_authenticated` session flag
exactly when the submitted form password equals the configured
`ADMIN_PASSWORD`; since a missing form field and an unset environment
variable both read as `None`, a deployment without `ADMIN_PASSWORD` grants
admin access to a request that omits the password field, despite the
startup warning (src/app.py lines 82-84) that admin features would be
inaccessible. -/
theorem admin_login_grant_iff_eq_and_none_none_grants :
    (∀ fp ap : Option String, admin_login_grants fp ap = true ↔ fp = ap) ∧
    admin_login_grants none none = true := by
  constructor
  · intro fp ap
    simp [admin_login_grants]
  · rfl

/-- Claim C10: `/health` always answers 200 with status `healthy`, is not
gated by credential validity (it never answers 503 for any database state),
its `connected` field is true exactly when an owner-token row exists, and
its `owner` field is the stored display name when connected and null
otherwise. -/
theorem health_always_200_connected_iff_token (db : Option OwnerToken) :
    (health_endpoint db).status = 200 ∧
    (∀ tok, db = some tok →
      health_endpoint db =
        ⟨200, Body.healthBody "healthy" true tok.displayName⟩) ∧
    (db = none →
      health_endpoint db = ⟨200, Body.healthBody "healthy" false none⟩) := by
  refine ⟨rfl, ?_, ?_⟩
  · intro tok h
    subst h
    rfl
  · intro h
    subst h
    rfl

/-- Witness for C10 at the disconnected state. -/
theorem health_always_200_connected_iff_token_witness :
    health_endpoint none = ⟨200, Body.healthBody "healthy" false none⟩ :=
  (health_always_200_connected_iff_token none).2.2 rfl

/-- Claim C9: when the stored token expires more than 2 minutes after `now`,
`refresh_owner_token_if_needed` answers `True` with zero refresh attempts
and the token row completely unchanged; a refresh attempt happens only when
the token is expired or expires within the next 2 minutes. -/
theorem refresh_skipped_when_fresh (now : Int) (net : Option TokenInfo)
    (tok : OwnerToken) :
    (now + 120 < tok.expiresAt →
      refresh_owner_token_if_needed now net (some tok) = ⟨true, some tok, 0⟩) ∧
    (0 < (refresh_owner_token_if_needed now net (some tok)).attempts →
      tok.expiresAt ≤ now + 120) := by
  constructor
  · intro h
    simp [refresh_owner_token_if_needed, h]
  · intro h
    by_contra hc
    push_neg at hc
    simp [refresh_owner_token_if_needed, hc] at h

/-- Witness for C9 at a token that is fresh for another 1000 seconds. -/
theorem refresh_skipped_when_fresh_witness :
    refresh_owner_token_if_needed 0 none
        (some ⟨"a", "r", 1000, "Bearer", "sc", none, none, 0⟩) =
      ⟨true, some ⟨"a", "r", 1000, "Bearer", "sc", none, none, 0⟩, 0⟩ :=
  (refresh_skipped_when_fresh 0 none
    ⟨"a", "r", 1000, "Bearer", "sc", none, none, 0⟩).1 (by decide)

/-- Claim C3: an analytics request that omits `time_range` is processed as
`medium_term`; a present but unrecognized value is silently defaulted to
`medium_term` (the route passes the raw value on, the logic layer defaults
it per the spec); the effective range always lies in the three-token set,
so the behavior is deterministic for all inputs. -/
theorem time_range_defaults_deterministic (args : List (String × String)) :
    (args.find? (fun kv => kv.1 == "time_range") = none →
      effective_time_range args = "medium_term") ∧
    (∀ kv, args.find? (fun kv => kv.1 == "time_range") = some kv →
      kv.2 ≠ "short_term" → kv.2 ≠ "medium_term" → kv.2 ≠ "long_term" →
      effective_time_range args = "medium_term") ∧
    (effective_time_range args = "short_term" ∨
      effective_time_range args = "medium_term" ∨
      effective_time_range args = "long_term") := by
  refine ⟨?_, ?_, ?_⟩
  · intro h
    simp [effective_time_range, top_albums_time_range, args_get, h,
      normalize_time_range]
  · intro kv h h1 h2 h3
    simp [effective_time_range, top_albums_time_range, args_get, h,
      normalize_time_range, h1, h2, h3]
  · exact normalize_time_range_cases (top_albums_time_range args)

/-- Witness for C3 at a request with an empty query string. -/
theorem time_range_defaults_deterministic_witness :
    effective_time_range [] = "medium_term" :=
  (time_range_defaults_deterministic []).1 rfl

/-- Claim C4: `standingTestOfTime` returns exactly the artist identifiers
present in all three window lists, in the long-term list's relative order
(the output is a sublist of the long list); an empty input list in any
position gives an empty result without raising; and on the spec's example
(long = [A,B,C,D], medium = [B,C,E], short = [B,F], letters encoded as
1..6) the result is [B]. -/
theorem standing_test_of_time_intersection (s m l : List Nat) :
    (∀ a, a ∈ standingTestOfTime s m l ↔ a ∈ l ∧ a ∈ s ∧ a ∈ m) ∧
    (standingTestOfTime s m l).Sublist l ∧
    (s = [] → standingTestOfTime s m l = []) ∧
    (m = [] → standingTestOfTime s m l = []) ∧
    (l = [] → standingTestOfTime s m l = []) ∧
    standingTestOfTime [2, 6] [2, 3, 5] [1, 2, 3, 4] = [2] := by
  refine ⟨?_, List.filter_sublist l, ?_, ?_, ?_, by decide⟩
  · intro a
    simp [standingTestOfTime, List.mem_filter]
  · intro h
    subst h
    simp [standingTestOfTime]
  · intro h
    subst h
    simp [standingTestOfTime]
  · intro h
    subst h
    rfl

/-- Witness for C4 with an empty short-term list. -/
theorem standing_test_of_time_intersection_witness :
    standingTestOfTime [] [1] [1, 2] = [] :=
  (standing_test_of_time_intersection [] [1] [1, 2]).2.2.1 rfl

/-- Claim C7: the per-year counts of `releaseYearTrends` plus the explicit
`unknown` bucket sum exactly to the number of input tracks — no track is
double-counted or dropped from the total. -/
theorem release_year_trends_total (ts : List Track) :
    ((releaseYearTrends ts).map Prod.snd).sum + unknownCount ts = ts.length := by
  have h1 : ((releaseYearTrends ts).map Prod.snd).sum = (knownYears ts).length := by
    unfold releaseYearTrends
    rw [List.map_map]
    have h2 : (Prod.snd ∘ fun y => (y, (knownYears ts).count y)) =
        fun y => (knownYears ts).count y := rfl
    rw [h2]
    exact List.sum_map_count_dedup_eq_length _
  rw [h1]
  exact length_knownYears_add_unknownCount ts

/-- Claim C5: `hiddenGems` returns the same tracks (a permutation of the
input), sorted stably ascending by popularity — on the indexed pairs the
output is pairwise ordered by `popIdxLE`, i.e. popularity ascends and equal
popularities keep their original fetch order — it is idempotent, and on
popularities [80, 5, 42, 5] it yields the two 5s in fetch order, then 42,
then 80. -/
theorem hidden_gems_stable_ascending_idempotent (l : List Track) :
    (hiddenGems l).Perm l ∧
    (hiddenGemsPairs l).Pairwise popIdxLE ∧
    (hiddenGems l).Pairwise popLE ∧
    hiddenGems (hiddenGems l) = hiddenGems l ∧
    hiddenGems [⟨0, 80, none⟩, ⟨1, 5, none⟩, ⟨2, 42, none⟩, ⟨3, 5, none⟩] =
      [⟨1, 5, none⟩, ⟨3, 5, none⟩, ⟨2, 42, none⟩, ⟨0, 80, none⟩] := by
  have hperm : (hiddenGems l).Perm l := by
    have h1 := (List.perm_insertionSort popIdxLE (withIdx 0 l)).map Prod.snd
    rwa [map_snd_withIdx] at h1
  have hpw : (hiddenGemsPairs l).Pairwise popIdxLE :=
    List.sorted_insertionSort popIdxLE (withIdx 0 l)
  have hpop : (hiddenGems l).Pairwise popLE := by
    refine hpw.map Prod.snd ?_
    intro a b hab
    unfold popIdxLE at hab
    unfold popLE
    omega
  refine ⟨hperm, hpw, hpop, ?_, by decide⟩
  have hsorted : (withIdx 0 (hiddenGems l)).Pairwise popIdxLE :=
    pairwise_withIdx hpop 0
  calc hiddenGems (hiddenGems l)
      = (List.insertionSort popIdxLE (withIdx 0 (hiddenGems l))).map Prod.snd := rfl
    _ = (withIdx 0 (hiddenGems l)).map Prod.snd := by
        rw [List.Sorted.insertionSort_eq hsorted]
    _ = hiddenGems l := map_snd_withIdx 0 _

/-- Claim C6: `topPlaylistsByAffinity` returns at most K = 10 playlists; on
the indexed pairs the output is pairwise ordered by `affLE`, i.e. match
counts descend and ties keep the original listing order; every returned
playlist has a positive match count; and the returned list itself is
pairwise descending in match count. -/
theorem top_playlists_at_most_ten_sorted_positive (topTracks : List Nat)
    (ps : List Playlist) :
    (topPlaylistsByAffinity topTracks ps).length ≤ 10 ∧
    (topPlaylistPairs topTracks ps).Pairwise (affLE topTracks) ∧
    (∀ p, p ∈ topPlaylistsByAffinity topTracks ps →
      0 < matchCount topTracks p) ∧
    (topPlaylistsByAffinity topTracks ps).Pairwise
      (fun p q => matchCount topTracks q ≤ matchCount topTracks p) := by
  have hpw : (topPlaylistPairs topTracks ps).Pairwise (affLE topTracks) :=
    (List.sorted_insertionSort (affLE topTracks) _).sublist
      (List.take_sublist 10 _)
  refine ⟨?_, hpw, ?_, ?_⟩
  · unfold topPlaylistsByAffinity topPlaylistPairs
    rw [List.length_map]
    exact List.length_take_le 10 _
  · intro p hp
    unfold topPlaylistsByAffinity at hp
    rcases List.mem_map.mp hp with ⟨q, hq, rfl⟩
    unfold topPlaylistPairs at hq
    have hq2 := List.mem_of_mem_take hq
    rw [List.mem_insertionSort] at hq2
    have hq3 := (List.mem_filter.mp hq2).2
    simp only [bne_iff_ne, ne_eq] at hq3
    omega
  · refine hpw.map Prod.snd ?_
    intro a b hab
    unfold affLE at hab
    omega

/-- Witness for C6: on one top track [1] and a single playlist containing
it, the returned playlist's match count is positive. -/
theorem top_playlists_at_most_ten_sorted_positive_witness :
    0 < matchCount [1] ⟨0, [1]⟩ :=
  (top_playlists_at_most_ten_sorted_positive [1] [⟨0, [1]⟩]).2.2.1
    ⟨0, [1]⟩ (by decide)

/-- Claim C1: in owner mode, an analytics endpoint answers 503 with the
error payload exactly in the `no valid owner credential` situations (no
stored owner token, or a token needing refresh whose refresh call fails);
in every other situation the wrapped handler runs on the authenticated
client and the endpoint answers 200 with the handler's data payload. -/
theorem analytics_endpoint_503_or_200 (fetch : Client → String) (now : Int)
    (net : Option TokenInfo) (db : Option OwnerToken) :
    (noValidOwnerCredential now net db →
      analyticsEndpoint fetch now net db =
        ⟨503, Body.errorPayload notConnectedMsg⟩) ∧
    (¬ noValidOwnerCredential now net db →
      ∃ c, get_owner_spotify_client now net db = some c ∧
        analyticsEndpoint fetch now net db = ⟨200, Body.data (fetch c)⟩) := by
  cases db with
  | none =>
    constructor
    · intro _
      rfl
    · intro h
      exact absurd (Or.inl rfl) h
  | some tok =>
    by_cases hexp : now + 120 < tok.expiresAt
    · constructor
      · intro h
        rcases h with h | ⟨tok', htok', hle, hnet⟩
        · exact Option.noConfusion h
        · injection htok' with he
          subst he
          omega
      · intro _
        refine ⟨⟨decrypt_token tok.accessTokenEncrypted⟩, ?_, ?_⟩
        · simp [get_owner_spotify_client, refresh_owner_token_if_needed, hexp]
        · simp [analyticsEndpoint, require_owner_token,
            get_owner_spotify_client, refresh_owner_token_if_needed, hexp]
    · cases net with
      | some info =>
        constructor
        · intro h
          rcases h with h | ⟨tok', htok', hle, hnet⟩
          · exact Option.noConfusion h
          · exact Option.noConfusion hnet
        · intro _
          refine ⟨⟨decrypt_token (encrypt_token info.accessToken)⟩, ?_, ?_⟩
          · simp [get_owner_spotify_client, refresh_owner_token_if_needed,
              hexp]
          · simp [analyticsEndpoint, require_owner_token,
              get_owner_spotify_client, refresh_owner_token_if_needed, hexp]
      | none =>
        constructor
        · intro _
          simp [analyticsEndpoint, require_owner_token,
            get_owner_spotify_client, refresh_owner_token_if_needed, hexp]
        · intro h
          exact absurd (Or.inr ⟨tok, rfl, by omega, rfl⟩) h

/-- Witness for C1 at the disconnected state (no stored owner token). -/
theorem analytics_endpoint_503_or_200_witness :
    analyticsEndpoint (fun c => c.auth) 0 none none =
      ⟨503, Body.errorPayload notConnectedMsg⟩ :=
  (analytics_endpoint_503_or_200 (fun c => c.auth) 0 none none).1 (Or.inl rfl)

/-- Claim C2: the token-refresh layer makes at most one network refresh
attempt per request; when the token needs a refresh and that single
upstream call fails transiently, exactly one attempt was made and the
boundary answers the 503 error payload as a value instead of crashing. -/
theorem refresh_retry_at_most_once (fetch : Client → String) (now : Int)
    (net : Option TokenInfo) (db : Option OwnerToken) :
    (refresh_owner_token_if_needed now net db).attempts ≤ 1 ∧
    (∀ tok, db = some tok → tok.expiresAt ≤ now + 120 → net = none →
      (refresh_owner_token_if_needed now net db).attempts = 1 ∧
      analyticsEndpoint fetch now net db =
        ⟨503, Body.errorPayload notConnectedMsg⟩) := by
  constructor
  · cases db with
    | none => simp [refresh_owner_token_if_needed]
    | some tok =>
      by_cases hexp : now + 120 < tok.expiresAt
      · simp [refresh_owner_token_if_needed, hexp]
      · cases net with
        | none => simp [refresh_owner_token_if_needed, hexp]
        | some info => simp [refresh_owner_token_if_needed, hexp]
  · intro tok hdb hle hnet
    subst hdb
    subst hnet
    have hexp : ¬ (now + 120 < tok.expiresAt) := by omega
    constructor
    · simp [refresh_owner_token_if_needed, hexp]
    · simp [analyticsEndpoint, require_owner_token, get_owner_spotify_client,
        refresh_owner_token_if_needed, hexp]

/-- Witness for C2 at an expired token whose refresh call fails. -/
theorem refresh_retry_at_most_once_witness :
    (refresh_owner_token_if_needed 0 none
        (some ⟨"a", "r", 0, "Bearer", "sc", none, none, 0⟩)).attempts = 1 ∧
    analyticsEndpoint (fun c => c.auth) 0 none
        (some ⟨"a", "r", 0, "Bearer", "sc", none, none, 0⟩) =
      ⟨503, Body.errorPayload notConnectedMsg⟩ :=
  (refresh_retry_at_most_once (fun c => c.auth) 0 none
    (some ⟨"a", "r", 0, "Bearer", "sc", none, none, 0⟩)).2
    ⟨"a", "r", 0, "Bearer", "sc", none, none, 0⟩ rfl (by decide) rfl
